import Mathlib

/-!
Shallow embedding of the `subrc` Rust crate (src/lib.rs).

The crate offers `Subrc<T, U>`: a reference-counted handle to a
sub-region (typically one field) of a value held in an `Rc<T>`.  The
embedding models machine addresses (`usize`) as natural numbers: the
reference `&T` handed to the getter is represented by the address of the
parent value, and the getter itself by the address of the reference it
returns as a function of that parent address.  `std::mem::size_of` for
the two type parameters is threaded through as explicit numbers `sizeT`
and `sizeF`; like the phantom type parameter `U` in the Rust source,
`sizeF` is recorded but never inspected by the validation.  A `panic!`
is modelled as `Except.error` carrying the panic message.
-/

namespace SubrcModel

/-- Model of `Rc<T>`: a heap slot with a stable address holding one
value of the parent type.  `addr` is the address of the `T` value
inside the allocation and `val` the value itself (consulted only by the
value-based `PartialEq` of `Rc`). -/
structure Rc (α : Type) where
  addr : Nat
  val : α

/-- Model of `Subrc<T, U>` (src/lib.rs lines 20-26): the shared parent
slot `rc`, the validated byte offset, and `sizeF`, the size of the
field type `U`.  `sizeF` stands for the `PhantomData<U>` marker: it
carries type-level information only, and the equality below ignores it
just as `PhantomData` always compares equal. -/
structure Subrc (α : Type) where
  rc : Rc α
  offset : Nat
  sizeF : Nat

/-- The message of both `panic!` calls in `Subrc::get_offset`. -/
def panicMsg : String := "getter did not return portion of the object"

/-- Embedding of `Subrc::get_offset` (src/lib.rs lines 29-43).
`sizeT` is `std::mem::size_of::<T>()`, `t_ptr` the address of the
parent value, `u_ptr` the address the getter returned.  The `usize`
subtraction `u_ptr - t_ptr` is guarded by the first check, so natural
subtraction coincides with it.  Both `panic!` arms become errors. -/
def get_offset (sizeT t_ptr u_ptr : Nat) : Except String Nat :=
  if u_ptr < t_ptr then
    Except.error panicMsg
  else if u_ptr - t_ptr ≥ sizeT then
    Except.error panicMsg
  else
    Except.ok (u_ptr - t_ptr)

/-- Embedding of `Subrc::new` (src/lib.rs lines 61-71).  The getter
`F: FnOnce(&T) -> &U` is modelled by the address of the reference it
returns, given the address of the parent it is handed.  A panic inside
`get_offset` propagates; on success the handle stores the shared slot,
the offset and the field-type marker. -/
def new {α : Type} (sizeT sizeF : Nat) (rc : Rc α) (getter : Nat → Nat) :
    Except String (Subrc α) :=
  (get_offset sizeT rc.addr (getter rc.addr)).map
    (fun offset => ⟨rc, offset, sizeF⟩)

/-- Embedding of `Subrc::get` (src/lib.rs lines 73-79): the address of
the returned `&U` reference, namely the parent address advanced by
`offset` bytes (`t_ptr.add(self.offset)`).  No validation happens
here. -/
def get {α : Type} (h : Subrc α) : Nat := h.rc.addr + h.offset

/-- Embedding of `<Subrc as Deref>::deref` (src/lib.rs lines 82-88):
the body is exactly `self.get()`. -/
def deref {α : Type} (h : Subrc α) : Nat := get h

/-- Embedding of the derived `Clone` (src/lib.rs line 20): `Rc::clone`
yields a handle to the same allocation (same address and value, with
the ownership count incremented — the count is not part of the model),
and `offset` and the phantom marker are copied verbatim.  No getter is
invoked and no validation runs. -/
def clone {α : Type} (h : Subrc α) : Subrc α :=
  ⟨⟨h.rc.addr, h.rc.val⟩, h.offset, h.sizeF⟩

/-- The `PartialEq` of `Rc<T>` compares the held values, not the
allocation addresses. -/
def rcEq {α : Type} [DecidableEq α] (a b : Rc α) : Bool :=
  decide (a.val = b.val)

/-- Embedding of the derived `PartialEq` (src/lib.rs line 20):
field-wise conjunction over `rc`, `offset` and the `PhantomData`
marker; the marker always compares equal and contributes nothing. -/
def subrcEq {α : Type} [DecidableEq α] (h k : Subrc α) : Bool :=
  rcEq h.rc k.rc && decide (h.offset = k.offset)

/-- When the address the getter returns lies before the parent or at
least `sizeT` bytes past its start, `new` panics. -/
theorem new_eq_error {α : Type} (sizeT sizeF : Nat) (rc : Rc α)
    (getter : Nat → Nat)
    (hc : getter rc.addr < rc.addr ∨ sizeT ≤ getter rc.addr - rc.addr) :
    new sizeT sizeF rc getter = Except.error panicMsg := by
  unfold new get_offset
  rcases hc with hlt | hge
  · rw [if_pos hlt]
    rfl
  · by_cases hlt : getter rc.addr < rc.addr
    · rw [if_pos hlt]
      rfl
    · rw [if_neg hlt, if_pos hge]
      rfl

/-- When the address the getter returns lies inside the parent extent,
`new` succeeds and stores the address difference as the offset. -/
theorem new_eq_ok {α : Type} (sizeT sizeF : Nat) (rc : Rc α)
    (getter : Nat → Nat) (h1 : rc.addr ≤ getter rc.addr)
    (h2 : getter rc.addr - rc.addr < sizeT) :
    new sizeT sizeF rc getter =
      Except.ok ⟨rc, getter rc.addr - rc.addr, sizeF⟩ := by
  unfold new get_offset
  rw [if_neg (by omega), if_neg (by omega)]
  rfl

/-- Inversion: a successful `new` stored the parent slot unchanged, the
address difference as offset (in particular below `sizeT`), and the
field marker. -/
theorem new_ok_inv {α : Type} {sizeT sizeF : Nat} {rc : Rc α}
    {getter : Nat → Nat} {h : Subrc α}
    (hok : new sizeT sizeF rc getter = Except.ok h) :
    h.rc = rc ∧ h.offset = getter rc.addr - rc.addr ∧
      h.offset < sizeT ∧ h.sizeF = sizeF := by
  unfold new get_offset at hok
  by_cases hlt : getter rc.addr < rc.addr
  · rw [if_pos hlt] at hok
    exact absurd hok (by simp [Except.map])
  · rw [if_neg hlt] at hok
    by_cases hge : getter rc.addr - rc.addr ≥ sizeT
    · rw [if_pos hge] at hok
      exact absurd hok (by simp [Except.map])
    · rw [if_neg hge] at hok
      simp only [Except.map, Except.ok.injEq] at hok
      subst hok
      refine ⟨rfl, rfl, ?_, rfl⟩
      show getter rc.addr - rc.addr < sizeT
      omega

end SubrcModel

namespace SubrcModel

/-- C1: for every parent value and every accessor returning a reference
to an actual field of it — a sub-region at byte offset `d` whose size
`sizeF` is positive and which lies fully inside the parent —
`Subrc::new` succeeds without panicking, and `get` on the resulting
handle returns a reference at exactly the address the accessor
returned, `parent address + d`. -/
theorem C1_actual_field_roundtrip {α : Type} (rc : Rc α) (sizeT sizeF d : Nat)
    (hpos : 0 < sizeF) (hfield : d + sizeF ≤ sizeT) :
    ∃ h : Subrc α, new sizeT sizeF rc (fun a => a + d) = Except.ok h ∧
      get h = rc.addr + d := by
  refine ⟨⟨rc, d, sizeF⟩, ?_, rfl⟩
  have he := new_eq_ok sizeT sizeF rc (fun a => a + d)
    (by show rc.addr ≤ rc.addr + d; omega)
    (by show rc.addr + d - rc.addr < sizeT; omega)
  simpa using he

/-- Witness for C1 at a concrete input: a parent of size 8 at address
100 with a 4-byte field at offset 4. -/
theorem C1_actual_field_roundtrip_witness :
    ∃ h : Subrc Nat, new 8 4 ⟨100, 0⟩ (fun a => a + 4) = Except.ok h ∧
      get h = 100 + 4 :=
  C1_actual_field_roundtrip ⟨100, 0⟩ 8 4 4 (by decide) (by decide)

/-- C2: `new` panics exactly when the address returned by the accessor
starts before the parent start or at least `size_of::<T>()` bytes past
it; on a panic no handle is produced (the result is an error, not a
handle), and in every other case `new` returns a handle. -/
theorem C2_abort_iff {α : Type} (sizeT sizeF : Nat) (rc : Rc α)
    (getter : Nat → Nat) :
    ((∃ e, new sizeT sizeF rc getter = Except.error e) ↔
      (getter rc.addr < rc.addr ∨ sizeT ≤ getter rc.addr - rc.addr)) ∧
    (¬ (getter rc.addr < rc.addr ∨ sizeT ≤ getter rc.addr - rc.addr) →
      ∃ h, new sizeT sizeF rc getter = Except.ok h) := by
  constructor
  · constructor
    · intro ⟨e, he⟩
      by_contra hc
      rw [new_eq_ok sizeT sizeF rc getter (by omega) (by omega)] at he
      exact Except.noConfusion he
    · intro hc
      exact ⟨panicMsg, new_eq_error sizeT sizeF rc getter hc⟩
  · intro hc
    exact ⟨⟨rc, getter rc.addr - rc.addr, sizeF⟩,
      new_eq_ok sizeT sizeF rc getter (by omega) (by omega)⟩

/-- C3 counterexample: the claimed invariant
`offset + size_of(Field) <= size_of(Parent)` fails on a successfully
constructed handle.  Concrete input: parent of size 4 at address 100,
field type of size 8, accessor returning the address 2 bytes into the
parent.  `new` succeeds with offset 2, yet `2 + 8 > 4`. -/
theorem C3_counterexample :
    ∃ h : Subrc Nat, new 4 8 ⟨100, 0⟩ (fun a => a + 2) = Except.ok h ∧
      ¬ (h.offset + h.sizeF ≤ 4) := by
  refine ⟨⟨⟨100, 0⟩, 2, 8⟩, ?_, by decide⟩
  rfl

/-- C3 (amended): for every successfully constructed handle the stored
offset satisfies `0 <= offset` and `offset < size_of(Parent)` — only
the start address of the field is validated, not the end — and this
invariant is established at construction and never changes: `clone`
copies the offset verbatim, and `get` reads the handle without
modifying it (it is a pure function of the stored base address and
offset). -/
theorem C3_offset_invariant {α : Type} (sizeT sizeF : Nat) (rc : Rc α)
    (getter : Nat → Nat) (h : Subrc α)
    (hok : new sizeT sizeF rc getter = Except.ok h) :
    0 ≤ h.offset ∧ h.offset < sizeT ∧ (clone h).offset = h.offset ∧
      get h = h.rc.addr + h.offset := by
  obtain ⟨-, -, hlt, -⟩ := new_ok_inv hok
  exact ⟨Nat.zero_le _, hlt, rfl, rfl⟩

/-- Witness for C3 (amended) at a concrete input: parent of size 8 at
address 100, accessor returning the address 4 bytes in. -/
theorem C3_offset_invariant_witness :
    0 ≤ (⟨⟨100, 0⟩, 4, 4⟩ : Subrc Nat).offset ∧
      (⟨⟨100, 0⟩, 4, 4⟩ : Subrc Nat).offset < 8 ∧
      (clone (⟨⟨100, 0⟩, 4, 4⟩ : Subrc Nat)).offset =
        (⟨⟨100, 0⟩, 4, 4⟩ : Subrc Nat).offset ∧
      get (⟨⟨100, 0⟩, 4, 4⟩ : Subrc Nat) =
        (⟨⟨100, 0⟩, 4, 4⟩ : Subrc Nat).rc.addr +
          (⟨⟨100, 0⟩, 4, 4⟩ : Subrc Nat).offset :=
  C3_offset_invariant 8 4 ⟨100, 0⟩ (fun a => a + 4) ⟨⟨100, 0⟩, 4, 4⟩ rfl

/-- C4: when the accessor returns a reference into a different,
unrelated parent instance — its storage region is disjoint from the
given parent and the returned address lies inside that other region —
`new` panics. -/
theorem C4_unrelated_instance_aborts {α : Type} (sizeT sizeF : Nat)
    (rc : Rc α) (addr2 sizeT2 u : Nat)
    (hdisj : rc.addr + sizeT ≤ addr2 ∨ addr2 + sizeT2 ≤ rc.addr)
    (hin : addr2 ≤ u ∧ u < addr2 + sizeT2) :
    ∃ e, new sizeT sizeF rc (fun _ => u) = Except.error e := by
  refine ⟨panicMsg, new_eq_error sizeT sizeF rc (fun _ => u) ?_⟩
  simp only []
  omega

/-- Witness for C4 at a concrete input: the given parent occupies
addresses 100..104, the unrelated instance 200..204, and the accessor
returns address 200. -/
theorem C4_unrelated_instance_aborts_witness :
    ∃ e, new 4 4 (⟨100, 0⟩ : Rc Nat) (fun _ => 200) = Except.error e :=
  C4_unrelated_instance_aborts 4 4 ⟨100, 0⟩ 200 4 200
    (Or.inl (by decide)) ⟨by decide, by decide⟩

/-- C5: `get` never fails on a successfully constructed handle: it is a
total function returning the base address plus the stored offset, and
that start address stays inside the parent allocation — for every field
size `sizeF`, including one extending past the remaining tail of the
parent, since `sizeF` is never consulted. -/
theorem C5_get_total_in_bounds {α : Type} (sizeT sizeF : Nat) (rc : Rc α)
    (getter : Nat → Nat) (h : Subrc α)
    (hok : new sizeT sizeF rc getter = Except.ok h) :
    get h = h.rc.addr + h.offset ∧ rc.addr ≤ get h ∧
      get h < rc.addr + sizeT := by
  obtain ⟨hrc, -, hlt, -⟩ := new_ok_inv hok
  subst hrc
  exact ⟨rfl, Nat.le_add_right _ _, by simpa [get] using hlt⟩

/-- Witness for C5 at a concrete input: parent of size 4 at address
100 and a field type of size 100, far past the tail of the parent;
construction still succeeds and `get` returns address 102. -/
theorem C5_get_total_in_bounds_witness :
    get (⟨⟨100, 0⟩, 2, 100⟩ : Subrc Nat) =
        (⟨⟨100, 0⟩, 2, 100⟩ : Subrc Nat).rc.addr +
          (⟨⟨100, 0⟩, 2, 100⟩ : Subrc Nat).offset ∧
      100 ≤ get (⟨⟨100, 0⟩, 2, 100⟩ : Subrc Nat) ∧
      get (⟨⟨100, 0⟩, 2, 100⟩ : Subrc Nat) < 100 + 4 :=
  C5_get_total_in_bounds 4 100 ⟨100, 0⟩ (fun a => a + 2) ⟨⟨100, 0⟩, 2, 100⟩ rfl

/-- C6: two handles of the same parent and field types compare equal
exactly when their underlying parent values are equal by value and
their offsets are equal; the allocation addresses play no role, so two
handles over distinct allocations holding equal values at the same
offset are equal, and handles over one allocation at different offsets
are unequal. -/
theorem C6_eq_iff {α : Type} [DecidableEq α] (h k : Subrc α) :
    subrcEq h k = true ↔ (h.rc.val = k.rc.val ∧ h.offset = k.offset) := by
  simp [subrcEq, rcEq]

/-- C7: cloning is infallible (a total function), shares the same
parent allocation, copies the offset and the field-type marker
verbatim without invoking any getter, and the clone compares equal to
the original while `get` on both returns the same address. -/
theorem C7_clone_shares_parent {α : Type} [DecidableEq α] (h : Subrc α) :
    (clone h).rc.addr = h.rc.addr ∧ (clone h).rc.val = h.rc.val ∧
      (clone h).offset = h.offset ∧ (clone h).sizeF = h.sizeF ∧
      subrcEq h (clone h) = true ∧ get (clone h) = get h := by
  refine ⟨rfl, rfl, rfl, rfl, ?_, rfl⟩
  simp [subrcEq, rcEq, clone]

/-- C8: `get` is deterministic: its result is a function of the stored
base address and offset alone, so any two calls on handles carrying the
same base and offset (in particular two calls on one unchanged handle,
the allocation not having moved) return the identical address, namely
base plus offset. -/
theorem C8_get_deterministic {α β : Type} (h : Subrc α) (k : Subrc β)
    (haddr : h.rc.addr = k.rc.addr) (hoff : h.offset = k.offset) :
    get h = get k ∧ get h = h.rc.addr + h.offset := by
  constructor
  · simp [get, haddr, hoff]
  · rfl

/-- Witness for C8 at a concrete input: two handles storing base 100
and offset 4. -/
theorem C8_get_deterministic_witness :
    get (⟨⟨100, 0⟩, 4, 4⟩ : Subrc Nat) = get (⟨⟨100, 5⟩, 4, 4⟩ : Subrc Bool) ∧
      get (⟨⟨100, 0⟩, 4, 4⟩ : Subrc Nat) =
        (⟨⟨100, 0⟩, 4, 4⟩ : Subrc Nat).rc.addr +
          (⟨⟨100, 0⟩, 4, 4⟩ : Subrc Nat).offset :=
  C8_get_deterministic ⟨⟨100, 0⟩, 4, 4⟩ ⟨⟨100, 5⟩, 4, 4⟩ rfl rfl

/-- C9: the `Deref` implementation is equivalent to `get`: `deref`
returns exactly the same address as `get` on the same handle. -/
theorem C9_deref_eq_get {α : Type} (h : Subrc α) : deref h = get h := rfl

/-- C10: over a zero-sized parent type (`size_of::<T>() = 0`) `new`
always panics, whatever the accessor — even one returning the parent
address itself — because the validation demands `offset < size_of(T)`
and no natural number is below zero; no handle over a zero-sized
parent is ever constructed. -/
theorem C10_zero_sized_parent_aborts {α : Type} (sizeF : Nat) (rc : Rc α)
    (getter : Nat → Nat) :
    ∃ e, new 0 sizeF rc getter = Except.error e :=
  ⟨panicMsg, new_eq_error 0 sizeF rc getter (Or.inr (Nat.zero_le _))⟩

end SubrcModel
